import Mathlib

/-
Verification of the LOCSAT travel-time table generator
(src/locsat/tables/compute_iasp91_locsat_table.py).

The script builds a fixed grid (one depth sample, ten distance samples given
in angular degrees and converted to kilometers), computes straight-line
travel times sqrt(z^2 + r^2) / group_speed over that grid, and serializes
the result in the LOCSAT iasp91 text format to a file iasp91.<phase>.

Numbers are modelled as exact reals.  Python fixed-point float formatting
(f-string fields such as :8.2f) is modelled by pyFormat: scale by 10^p,
round half up, and right-justify in the field width.  File-system state is
modelled as a partial map from file names to contents; opening with mode
"w" replaces the mapped content.
-/

/-- Modelled from the spec: the external degrees-to-kilometers conversion
routine (obspy.geodetics degrees2kilometers with its default radius), which
is not part of this repository.  Great-circle arc length on a sphere of
radius 6371.0 km: convert degrees to radians, then multiply by the radius. -/
noncomputable def degrees2kilometers (degrees : ℝ) : ℝ :=
  degrees * Real.pi / 180 * 6371.0

/-- Depth samples: `z_samples = np.array([0.0])`. -/
noncomputable def z_samples : List ℝ := [0.0]

/-- Distance samples in angular degrees:
`d_samples = np.array([0.0, 0.1, 0.5, 1.0, 5.0, 10.0, 15.0, 20.0, 25.0, 30.0])`. -/
noncomputable def d_samples : List ℝ :=
  [0.0, 0.1, 0.5, 1.0, 5.0, 10.0, 15.0, 20.0, 25.0, 30.0]

/-- Kilometer distances: `r_samples = degrees2kilometers(d_samples)`
(elementwise application of the conversion). -/
noncomputable def r_samples : List ℝ := d_samples.map degrees2kilometers

/-- Right-justify a string in a field of width `w` (spaces on the left);
a string longer than the field is kept whole, as in Python. -/
def padLeft (w : ℕ) (s : String) : String :=
  ⟨List.replicate (w - s.length) ' '⟩ ++ s

/-- Left-pad a digit string with zeros to length `p`. -/
def padZeros (p : ℕ) (s : String) : String :=
  ⟨List.replicate (p - s.length) '0'⟩ ++ s

/-- Render a scaled integer `n` (the value times `10^p`) as a decimal
numeral with `p` digits after the point. -/
def decimalOfScaled (n : ℤ) (p : ℕ) : String :=
  if p = 0 then toString n
  else
    (if n < 0 then "-" else "") ++ toString (n.natAbs / 10 ^ p) ++ "." ++
      padZeros p (toString (n.natAbs % 10 ^ p))

/-- Fixed-point formatting of a real number, modelling a Python f-string
field `:{w}.{p}f`: round to `p` decimal places (half rounded up) and
right-justify in a field of width `w`. -/
noncomputable def pyFormat (w p : ℕ) (x : ℝ) : String :=
  padLeft w (decimalOfScaled ⌊x * 10 ^ p + 1 / 2⌋ p)

/-- Sequential concatenation of the strings passed to consecutive
`f.write` calls. -/
def concatAll : List String → String
  | [] => ""
  | s :: rest => s ++ concatAll rest

/-- The sample-writing loop:
`for i, x in enumerate(xs, 1): f.write(f"{x:8.2f}")` followed by a newline
whenever `i % 10 == 0 or i == len(xs)`. -/
noncomputable def writeSamples (xs : List ℝ) : String :=
  concatAll ((xs.enumFrom 1).map (fun p =>
    pyFormat 8 2 p.2 ++ (if p.1 % 10 = 0 ∨ p.1 = xs.length then "\n" else "")))

/-- The travel-time formula from the inner loop:
`travel_time = np.sqrt(z**2 + r**2) / group_speed`. -/
noncomputable def travel_time (z r group_speed : ℝ) : ℝ :=
  Real.sqrt (z ^ 2 + r ^ 2) / group_speed

/-- The travel-time lines of one depth block: one line per kilometer
distance sample, `f.write(f"{travel_time:12.3f}\n")`. -/
noncomputable def ttLines (z group_speed : ℝ) : List String :=
  r_samples.map (fun r => pyFormat 12 3 (travel_time z r group_speed) ++ "\n")

/-- One depth block: the header
`f.write(f"# Travel-time/amplitude for z = {z:8.2f}\n")` followed by the
travel-time lines. -/
noncomputable def depthBlock (z group_speed : ℝ) : String :=
  "# Travel-time/amplitude for z = " ++ pyFormat 8 2 z ++ "\n" ++
    concatAll (ttLines z group_speed)

/-- The output file name: `file_name = f"iasp91.{phase}"`. -/
def file_name (phase : String) : String := "iasp91." ++ phase

/-- The full content written to the output file by
`generate_travel_time_table`, in write order: header line, depth-sample
count line, depth samples, distance-sample count line, distance samples
(in degrees), then one block of travel times per depth sample. -/
noncomputable def fileContent (phase : String) (group_speed : ℝ) : String :=
  "n # " ++ phase ++ " travel-time tables\n" ++
  toString z_samples.length ++ " # number of depth samples\n" ++
  writeSamples z_samples ++
  toString d_samples.length ++ " # number of distance samples\n" ++
  writeSamples d_samples ++
  concatAll (z_samples.map (fun z => depthBlock z group_speed))

/-- The travel-time table as a value: the nested loops over `z_samples`
and `r_samples` applying the travel-time formula. -/
noncomputable def travelTimeTable (group_speed : ℝ) : List (List ℝ) :=
  z_samples.map (fun z => r_samples.map (fun r => travel_time z r group_speed))

/-- File-system state: a partial map from file names to file contents. -/
abbrev FS : Type := String → Option String

/-- Diagnostic messages printed to standard output (only under the
verbose flag). -/
inductive Msg where
  | generating (phase : String)
  | outputFile (name : String)
  | groupSpeed (speed : ℝ)
  | written (name : String)

/-- The whole `generate_travel_time_table(phase, group_speed, verbose)`
call: returns the standard-output messages and the updated file system.
Opening the file with mode "w" creates or truncates it, so the final
mapped content is exactly `fileContent`, independent of any prior file. -/
noncomputable def generate_travel_time_table
    (phase : String) (group_speed : ℝ) (verbose : Bool) (fs : FS) :
    List Msg × FS :=
  let pre := if verbose then
      [Msg.generating phase, Msg.outputFile (file_name phase),
        Msg.groupSpeed group_speed]
    else []
  let fs' : FS := fun n =>
    if n = file_name phase then some (fileContent phase group_speed) else fs n
  let post := if verbose then [Msg.written (file_name phase)] else []
  (pre ++ post, fs')

/-- The first line of a string: its characters up to (excluding) the first
newline. -/
def firstLine (s : String) : String :=
  ⟨s.data.takeWhile (fun c => c != '\n')⟩

lemma pyFormat_eval (w p : ℕ) (x : ℝ) (n : ℤ) (h1 : (n : ℝ) ≤ x * 10 ^ p + 1 / 2)
    (h2 : x * 10 ^ p + 1 / 2 < n + 1) :
    pyFormat w p x = padLeft w (decimalOfScaled n p) := by
  unfold pyFormat
  rw [Int.floor_eq_iff.mpr ⟨h1, h2⟩]

lemma fmt8_0 : pyFormat 8 2 (0.0 : ℝ) = "    0.00" := by
  rw [pyFormat_eval 8 2 (0.0 : ℝ) 0 (by norm_num) (by norm_num)]; rfl

lemma fmt8_01 : pyFormat 8 2 (0.1 : ℝ) = "    0.10" := by
  rw [pyFormat_eval 8 2 (0.1 : ℝ) 10 (by norm_num) (by norm_num)]; rfl

lemma fmt8_05 : pyFormat 8 2 (0.5 : ℝ) = "    0.50" := by
  rw [pyFormat_eval 8 2 (0.5 : ℝ) 50 (by norm_num) (by norm_num)]; rfl

lemma fmt8_1 : pyFormat 8 2 (1.0 : ℝ) = "    1.00" := by
  rw [pyFormat_eval 8 2 (1.0 : ℝ) 100 (by norm_num) (by norm_num)]; rfl

lemma fmt8_5 : pyFormat 8 2 (5.0 : ℝ) = "    5.00" := by
  rw [pyFormat_eval 8 2 (5.0 : ℝ) 500 (by norm_num) (by norm_num)]; rfl

lemma fmt8_10 : pyFormat 8 2 (10.0 : ℝ) = "   10.00" := by
  rw [pyFormat_eval 8 2 (10.0 : ℝ) 1000 (by norm_num) (by norm_num)]; rfl

lemma fmt8_15 : pyFormat 8 2 (15.0 : ℝ) = "   15.00" := by
  rw [pyFormat_eval 8 2 (15.0 : ℝ) 1500 (by norm_num) (by norm_num)]; rfl

lemma fmt8_20 : pyFormat 8 2 (20.0 : ℝ) = "   20.00" := by
  rw [pyFormat_eval 8 2 (20.0 : ℝ) 2000 (by norm_num) (by norm_num)]; rfl

lemma fmt8_25 : pyFormat 8 2 (25.0 : ℝ) = "   25.00" := by
  rw [pyFormat_eval 8 2 (25.0 : ℝ) 2500 (by norm_num) (by norm_num)]; rfl

lemma fmt8_30 : pyFormat 8 2 (30.0 : ℝ) = "   30.00" := by
  rw [pyFormat_eval 8 2 (30.0 : ℝ) 3000 (by norm_num) (by norm_num)]; rfl
section
lemma writeSamples_z_eval : writeSamples z_samples = "    0.00\n" := by
  rw [writeSamples, z_samples]
  simp only [List.enumFrom, List.map, List.length_cons, List.length_nil, concatAll, fmt8_0]
  norm_num
  rfl

lemma writeSamples_d_eval :
    writeSamples d_samples =
      "    0.00    0.10    0.50    1.00    5.00   10.00   15.00   20.00   25.00   30.00\n" := by
  rw [writeSamples, d_samples]
  simp only [List.enumFrom, List.map, List.length_cons, List.length_nil, concatAll,
    fmt8_0, fmt8_01, fmt8_05, fmt8_1, fmt8_5, fmt8_10, fmt8_15, fmt8_20, fmt8_25, fmt8_30]
  norm_num
  rfl
end

/-- C2: for every phase string and group speed, the serialized file content
has exactly the claimed layout: the line `n # <phase> travel-time tables`,
the depth-sample count line `1 # number of depth samples`, the single depth
value formatted `%8.2f`, the distance-sample count line
`10 # number of distance samples`, the ten distance values each formatted
`%8.2f` using the angular degree values (not the kilometer-converted ones),
then per depth sample one `# Travel-time/amplitude for z = ...` header line
followed by one travel-time value per distance sample, each on its own line
formatted `%12.3f`, with no amplitude column. -/
theorem file_layout_exact (phase : String) (s : ℝ) :
    fileContent phase s =
      "n # " ++ phase ++ " travel-time tables\n" ++
      "1 # number of depth samples\n" ++
      "    0.00\n" ++
      "10 # number of distance samples\n" ++
      "    0.00    0.10    0.50    1.00    5.00   10.00   15.00   20.00   25.00   30.00\n" ++
      "# Travel-time/amplitude for z =     0.00\n" ++
      (pyFormat 12 3 (travel_time 0.0 (degrees2kilometers 0.0) s) ++ "\n") ++
      (pyFormat 12 3 (travel_time 0.0 (degrees2kilometers 0.1) s) ++ "\n") ++
      (pyFormat 12 3 (travel_time 0.0 (degrees2kilometers 0.5) s) ++ "\n") ++
      (pyFormat 12 3 (travel_time 0.0 (degrees2kilometers 1.0) s) ++ "\n") ++
      (pyFormat 12 3 (travel_time 0.0 (degrees2kilometers 5.0) s) ++ "\n") ++
      (pyFormat 12 3 (travel_time 0.0 (degrees2kilometers 10.0) s) ++ "\n") ++
      (pyFormat 12 3 (travel_time 0.0 (degrees2kilometers 15.0) s) ++ "\n") ++
      (pyFormat 12 3 (travel_time 0.0 (degrees2kilometers 20.0) s) ++ "\n") ++
      (pyFormat 12 3 (travel_time 0.0 (degrees2kilometers 25.0) s) ++ "\n") ++
      (pyFormat 12 3 (travel_time 0.0 (degrees2kilometers 30.0) s) ++ "\n") := by
  rw [fileContent, writeSamples_z_eval, writeSamples_d_eval]
  simp only [z_samples, d_samples, r_samples, List.map, List.length_cons, List.length_nil,
    concatAll, depthBlock, ttLines, fmt8_0]
  simp only [String.append_assoc]
  rfl

/-- C1: every travel-time table entry equals sqrt(z^2 + r^2) / s for the
corresponding depth sample z and kilometer-distance sample r; in particular,
since the only depth sample is 0.0, for every group speed s > 0 the entry at
the 0.1-degree sample (index 1) equals degrees2kilometers 0.1 / s exactly. -/
theorem table_matches_formula (s : ℝ) (hs : 0 < s) :
    (∀ i j : ℕ, i < z_samples.length → j < r_samples.length →
        ((travelTimeTable s).getD i []).getD j 0 =
          Real.sqrt ((z_samples.getD i 0) ^ 2 + (r_samples.getD j 0) ^ 2) / s) ∧
    ((travelTimeTable s).getD 0 []).getD 1 0 = degrees2kilometers 0.1 / s := by
  constructor
  · intro i j hi hj
    simp only [z_samples, List.length_cons, List.length_nil] at hi
    have hi0 : i = 0 := by omega
    subst hi0
    simp only [r_samples, d_samples, List.length_map, List.length_cons, List.length_nil] at hj
    interval_cases j <;>
      simp [travelTimeTable, z_samples, r_samples, d_samples, travel_time, List.getD]
  · have h0 : (0 : ℝ) ≤ degrees2kilometers 0.1 := by
      unfold degrees2kilometers; positivity
    simp [travelTimeTable, z_samples, r_samples, d_samples, travel_time, List.getD]
    rw [show (0.0 : ℝ) ^ 2 + degrees2kilometers 0.1 ^ 2 = degrees2kilometers 0.1 ^ 2 by
        norm_num,
      Real.sqrt_sq h0]

/-- Witness for C1 at group speed 1. -/
theorem table_matches_formula_witness :
    (0 : ℝ) < 1 ∧ ((travelTimeTable 1).getD 0 []).getD 1 0 = degrees2kilometers 0.1 / 1 :=
  ⟨by norm_num, (table_matches_formula 1 (by norm_num)).2⟩

/-- C3: the kilometer-distance sequence is parallel and index-aligned to the
degree sequence, each entry obtained as degrees * (pi/180) * 6371.0. -/
theorem r_samples_from_degrees :
    r_samples.length = d_samples.length ∧
    ∀ i : ℕ, i < d_samples.length →
      r_samples.getD i 0 = d_samples.getD i 0 * (Real.pi / 180) * 6371.0 := by
  constructor
  · simp [r_samples]
  · intro i hi
    simp only [d_samples, List.length_cons, List.length_nil] at hi
    interval_cases i <;>
      simp only [r_samples, d_samples, List.map, List.getD_cons_zero, List.getD_cons_succ] <;>
      · unfold degrees2kilometers
        ring

/-- Witness for C3 at index 1. -/
theorem r_samples_from_degrees_witness :
    1 < d_samples.length ∧
      r_samples.getD 1 0 = d_samples.getD 1 0 * (Real.pi / 180) * 6371.0 :=
  ⟨by norm_num [d_samples], r_samples_from_degrees.2 1 (by norm_num [d_samples])⟩

/-- C4: the declared depth-sample count equals the number of depth values
written (always 1), the declared distance-sample count equals the number of
travel-time lines written per depth block (always 10), and the
degree-distance and kilometer-distance sequences are index-aligned. -/
theorem declared_counts_consistent :
    z_samples.length = 1 ∧ d_samples.length = 10 ∧
    r_samples.length = d_samples.length ∧
    (∀ z s : ℝ, (ttLines z s).length = d_samples.length) ∧
    (∀ s : ℝ, (z_samples.map (fun z => depthBlock z s)).length = z_samples.length) := by
  refine ⟨by simp [z_samples], by simp [d_samples], by simp [r_samples], ?_, ?_⟩
  · intro z s
    simp [ttLines, r_samples]
  · intro s
    simp

/-- C5: running the generator twice with an identical (phase, speed) pair
leaves the file system unchanged after the first run; the resulting file
content is exactly fileContent regardless of any prior content of the file
(mode "w" overwrites rather than appends or merges). -/
theorem generate_idempotent (phase : String) (s : ℝ) (v : Bool) (fs : FS) :
    (generate_travel_time_table phase s v
        ((generate_travel_time_table phase s v fs).2)).2 =
      (generate_travel_time_table phase s v fs).2 ∧
    (generate_travel_time_table phase s v fs).2 (file_name phase) =
      some (fileContent phase s) ∧
    ∀ prior : String,
      (generate_travel_time_table phase s v
          (fun n => if n = file_name phase then some prior else fs n)).2 (file_name phase) =
        some (fileContent phase s) := by
  refine ⟨?_, ?_, ?_⟩
  · funext n
    by_cases h : n = file_name phase <;> simp [generate_travel_time_table, h]
  · simp [generate_travel_time_table]
  · intro prior
    simp [generate_travel_time_table]

/-- C9: two runs that differ only in the verbosity flag produce identical
output-file state; the flag influences only the standard-output messages. -/
theorem verbose_does_not_affect_file (phase : String) (s : ℝ) (v₁ v₂ : Bool) (fs : FS) :
    (generate_travel_time_table phase s v₁ fs).2 =
      (generate_travel_time_table phase s v₂ fs).2 := rfl

/-- Counterexample to C7 as stated: at group speed -1 (a value the program
accepts without validation), the table cell at depth index 0 and distance
index 1 is strictly negative. -/
theorem table_entry_negative_at_negative_speed :
    ((travelTimeTable (-1)).getD 0 []).getD 1 0 < 0 := by
  simp only [travelTimeTable, z_samples, r_samples, d_samples, List.map,
    List.getD_cons_zero, List.getD_cons_succ]
  unfold travel_time
  have h0 : (0 : ℝ) < degrees2kilometers 0.1 := by
    unfold degrees2kilometers
    positivity
  rw [show (0.0 : ℝ) ^ 2 + degrees2kilometers 0.1 ^ 2 = degrees2kilometers 0.1 ^ 2 by
      norm_num,
    Real.sqrt_sq h0.le]
  exact div_neg_of_pos_of_neg h0 (by norm_num)

/-- C7 (amended): every cell of the travel-time table is non-negative for
every strictly positive group speed. -/
theorem table_entries_nonneg (s : ℝ) (hs : 0 < s) :
    ∀ row ∈ travelTimeTable s, ∀ x ∈ row, 0 ≤ x := by
  intro row hrow x hx
  simp only [travelTimeTable, List.mem_map] at hrow
  obtain ⟨z, hz, rfl⟩ := hrow
  simp only [List.mem_map] at hx
  obtain ⟨r, hr, rfl⟩ := hx
  unfold travel_time
  exact div_nonneg (Real.sqrt_nonneg _) hs.le

/-- Witness for the amended C7 at group speed 1. -/
theorem table_entries_nonneg_witness :
    (0 : ℝ) < 1 ∧ ∀ row ∈ travelTimeTable 1, ∀ x ∈ row, 0 ≤ x :=
  ⟨by norm_num, table_entries_nonneg 1 (by norm_num)⟩

lemma travel_time_le {z r₁ r₂ s : ℝ} (hs : 0 < s) (h1 : 0 ≤ r₁) (h12 : r₁ ≤ r₂) :
    travel_time z r₁ s ≤ travel_time z r₂ s := by
  unfold travel_time
  apply div_le_div_of_nonneg_right _ hs.le
  apply Real.sqrt_le_sqrt
  have : r₁ ^ 2 ≤ r₂ ^ 2 := pow_le_pow_left₀ h1 h12 2
  linarith

/-- Counterexample to C8 as stated: at group speed -1 (a value the program
accepts without validation), the travel time at distance index 1 is strictly
smaller than the one at distance index 0, so the row of the table is not
non-decreasing in the distance index for every accepted group speed. -/
theorem travel_times_not_monotone_at_negative_speed :
    ((travelTimeTable (-1)).getD 0 []).getD 1 0 <
      ((travelTimeTable (-1)).getD 0 []).getD 0 0 := by
  simp only [travelTimeTable, z_samples, r_samples, d_samples, List.map,
    List.getD_cons_zero, List.getD_cons_succ]
  unfold travel_time
  have h0 : (0 : ℝ) < degrees2kilometers 0.1 := by
    unfold degrees2kilometers
    positivity
  rw [show (0.0 : ℝ) ^ 2 + degrees2kilometers 0.0 ^ 2 = 0 by
      unfold degrees2kilometers
      ring,
    Real.sqrt_zero,
    show (0 : ℝ) / (-1) = 0 by norm_num,
    show (0.0 : ℝ) ^ 2 + degrees2kilometers 0.1 ^ 2 = degrees2kilometers 0.1 ^ 2 by
      norm_num,
    Real.sqrt_sq h0.le]
  exact div_neg_of_pos_of_neg h0 (by norm_num)

/-- C8 (amended): for fixed depth and fixed strictly positive group speed,
the travel times along each row of the table are non-decreasing in the
distance index. -/
theorem travel_times_monotone (s : ℝ) (hs : 0 < s) :
    ∀ row ∈ travelTimeTable s, row.Pairwise (· ≤ ·) := by
  intro row hrow
  simp only [travelTimeTable, List.mem_map] at hrow
  obtain ⟨z, hz, rfl⟩ := hrow
  rw [List.pairwise_map]
  unfold r_samples
  rw [List.pairwise_map]
  have hd : d_samples.Pairwise (fun a b => 0 ≤ a ∧ a ≤ b) := by
    norm_num [d_samples, List.pairwise_cons]
  refine hd.imp ?_
  intro a b hab
  apply travel_time_le hs
  · unfold degrees2kilometers
    exact mul_nonneg (div_nonneg (mul_nonneg hab.1 Real.pi_pos.le) (by norm_num)) (by norm_num)
  · unfold degrees2kilometers
    nlinarith [Real.pi_pos, hab.1, hab.2]

/-- Witness for the amended C8 at group speed 1. -/
theorem travel_times_monotone_witness :
    (0 : ℝ) < 1 ∧ ∀ row ∈ travelTimeTable 1, row.Pairwise (· ≤ ·) :=
  ⟨by norm_num, travel_times_monotone 1 (by norm_num)⟩

lemma takeWhile_append_all {α : Type} (p : α → Bool) (l₁ l₂ : List α)
    (h : ∀ a ∈ l₁, p a = true) :
    (l₁ ++ l₂).takeWhile p = l₁ ++ l₂.takeWhile p := by
  induction l₁ with
  | nil => simp
  | cons a l ih =>
    rw [List.cons_append, List.takeWhile_cons_of_pos (h a (List.mem_cons_self a l)),
      ih (fun x hx => h x (List.mem_cons_of_mem a hx)), List.cons_append]

/-- C10: the phase string is embedded verbatim and unescaped both in the
output file name iasp91.<phase> and in the file's first line.  For every
phase containing no newline, the first line of the written content is
exactly `n # <phase> travel-time tables`; for every phase containing a
newline, the first line is not of this form. -/
theorem header_phase_verbatim :
    (∀ phase : String, file_name phase = "iasp91." ++ phase) ∧
    (∀ (phase : String) (s : ℝ), '\n' ∉ phase.data →
      firstLine (fileContent phase s) = "n # " ++ phase ++ " travel-time tables") ∧
    (∀ (phase : String) (s : ℝ), '\n' ∈ phase.data →
      firstLine (fileContent phase s) ≠ "n # " ++ phase ++ " travel-time tables") := by
  refine ⟨fun phase => rfl, ?_, ?_⟩
  · intro phase s hphase
    have hp : ∀ a ∈ phase.data, (a != '\n') = true := by
      intro a ha
      simp only [bne_iff_ne, ne_eq, decide_eq_true_eq]
      rintro rfl
      exact hphase ha
    apply String.ext
    unfold firstLine fileContent
    dsimp only
    simp only [String.data_append, List.append_assoc]
    rw [takeWhile_append_all _ _ _ (by decide), takeWhile_append_all _ _ _ hp]
    rfl
  · intro phase s hphase heq
    have h1 : '\n' ∈ ("n # " ++ phase ++ " travel-time tables").data := by
      simp [String.data_append, List.mem_append, hphase]
    rw [← heq] at h1
    have h1' : '\n' ∈ (fileContent phase s).data.takeWhile (fun c => c != '\n') := h1
    exact absurd (List.mem_takeWhile_imp h1') (by decide)

/-- Witness for C10 with phase "Is" and group speed 0.34 (the spec's
example invocation). -/
theorem header_phase_verbatim_witness :
    ('\n' ∉ "Is".data) ∧
      firstLine (fileContent "Is" 0.34) = "n # " ++ "Is" ++ " travel-time tables" :=
  ⟨by decide, header_phase_verbatim.2.1 "Is" 0.34 (by decide)⟩
